import Mathlib

/-!
A shallow embedding of `src/streamlit_app.py` from the repository
`fznnfitrah/multilabel-sound-classification-psd-pt2`, together with
theorems settling the specification claims about it.

The program is a linear inference pipeline:
decode audio → extract features → reindex columns → replace infinities →
impute → classify → map prediction codes to labels, plus an asset loader
and an upload handler that shells out to ffmpeg.

External collaborators (tsfel, the serialized imputer and classifier,
ffmpeg, librosa decoding) are opaque in the source; here they appear as
function parameters returning `Except` (a raised exception is an
`Except.error`).  The pandas operations `reindex` and `replace`, the
label interpretation, the control flow of `run_prediction_pipeline`,
`load_assets` and `process_uploaded_file`, and the temporary-file
bookkeeping are embedded concretely from the source.
-/

namespace SoundApp

/-- A cell value of a pandas feature row: a finite number, the
missing-value marker `NaN`, or one of the two infinities
(`np.inf`, `-np.inf`). -/
inductive Val where
  | num (q : ℚ)
  | nan
  | posInf
  | negInf
deriving DecidableEq

/-- A single-row feature table: ordered association of column name to value. -/
abbrev Row := List (String × Val)

/-- `TARGET_SR = 16000` (line 23 of the source). -/
def TARGET_SR : ℕ := 16000

/-- Column lookup used by pandas `reindex`: the value of column `name`
in the extracted table, or the missing-value marker `NaN` when the
table has no such column. -/
def lookupVal (features : Row) (name : String) : Val :=
  match features.find? (fun p => p.1 == name) with
  | some p => p.2
  | none => Val.nan

/-- Embedding of `features.reindex(columns=selected_features_names)`
(line 61): the result has exactly the requested columns, in the requested
order; a requested column absent from `features` gets `NaN`. -/
def reindexColumns (features : Row) (cols : List String) : Row :=
  cols.map (fun c => (c, lookupVal features c))

/-- Embedding of the element operation of
`replace([np.inf, -np.inf], np.nan)` (line 64): both infinities become
the missing-value marker; every other value is unchanged. -/
def replaceInfVal (v : Val) : Val :=
  match v with
  | Val.posInf => Val.nan
  | Val.negInf => Val.nan
  | x => x

/-- Embedding of `features_reindexed.replace([np.inf, -np.inf], np.nan)`
(line 64), applied cell-wise to the row. -/
def replace_inf (row : Row) : Row :=
  row.map (fun p => (p.1, replaceInfVal p.2))

/-- Embedding of line 72: `kata = "Buka" if pred_array[0] == 1 else "Tutup"`. -/
def interpretKata (v : ℤ) : String :=
  if v = 1 then "Buka" else "Tutup"

/-- Embedding of line 73: `pembicara = "Fikri" if pred_array[2] == 1 else "Fauzan"`. -/
def interpretPembicara (v : ℤ) : String :=
  if v = 1 then "Fikri" else "Fauzan"

/-- The Label Interpreter (lines 72-73): reads positions 0 and 2 of the
prediction vector; a vector too short raises `IndexError` (an
`Except.error` here), which the pipeline boundary catches. -/
def interpret (pred_array : List ℤ) : Except String (String × String) :=
  match pred_array[0]?, pred_array[2]? with
  | some a, some b => Except.ok (interpretKata a, interpretPembicara b)
  | _, _ => Except.error "IndexError"

/-- Result of `run_prediction_pipeline`: the label pair (each component
`none` when the pipeline failed) plus the user-facing error messages
emitted via `st.error`. -/
structure PipelineResult where
  kata : Option String
  pembicara : Option String
  errors : List String
deriving DecidableEq

/-- The `try` body of `run_prediction_pipeline` (lines 56-75): feature
extraction, reindexing, infinity replacement, imputation, classification,
and interpretation, each fallible step aborting the rest.  The external
steps (tsfel extractor, fitted imputer, classifier) are parameters. -/
def pipelineBody
    (extractor : List ℚ → ℕ → Except String Row)
    (selected : List String)
    (imputerT : Row → Except String Row)
    (predictF : Row → Except String (List (List ℤ)))
    (signal : List ℚ) (sr : ℕ) : Except String (String × String) :=
  match extractor signal sr with
  | Except.error e => Except.error e
  | Except.ok features =>
    let features_reindexed := reindexColumns features selected
    let features_no_inf := replace_inf features_reindexed
    match imputerT features_no_inf with
    | Except.error e => Except.error e
    | Except.ok features_imputed =>
      match predictF features_imputed with
      | Except.error e => Except.error e
      | Except.ok prediction =>
        match prediction[0]? with
        | some pred_array => interpret pred_array
        | none => Except.error "IndexError"

/-- `run_prediction_pipeline` (lines 52-79): runs the body; any raised
error is caught at the boundary, shown via `st.error`, and the function
returns `(None, None)`. -/
def run_prediction_pipeline
    (extractor : List ℚ → ℕ → Except String Row)
    (selected : List String)
    (imputerT : Row → Except String Row)
    (predictF : Row → Except String (List (List ℤ)))
    (signal : List ℚ) (sr : ℕ) : PipelineResult :=
  match pipelineBody extractor selected imputerT predictF signal sr with
  | Except.ok (k, p) => ⟨some k, some p, []⟩
  | Except.error e =>
      ⟨none, none, ["Terjadi error saat menjalankan pipeline prediksi: " ++ e]⟩

/-- A deserialized artifact as `joblib.load` returns it: either a Python
`list` of strings or some other object (the `isinstance(..., list)` check
on line 36 only distinguishes these two shapes). -/
inductive Artifact where
  | strList (names : List String)
  | blob (tag : String)
deriving DecidableEq

/-- An exception raised while loading an artifact: `FileNotFoundError`
or any other exception carrying its message. -/
inductive LoadErr where
  | fileNotFound
  | exc (msg : String)
deriving DecidableEq

/-- What `load_assets` leaves the process in: the four assets, the
all-`None` quadruple of line 38, or halted by `st.stop()` (lines 43, 46). -/
inductive AssetsResult where
  | loaded (model imputer : Artifact) (names : List String) (cfg : Unit)
  | allNone
  | halted (msg : String)
deriving DecidableEq

/-- Whether `load_assets` ended in `st.stop()`. -/
def AssetsResult.isHalted : AssetsResult → Bool
  | AssetsResult.halted _ => true
  | _ => false

/-- The sequence of loads inside the `try` of `load_assets`
(lines 31-34): the first raised exception aborts the rest. -/
def tryLoadAll (loadModel loadImputer loadSelected : Except LoadErr Artifact)
    (getCfg : Except LoadErr Unit) :
    Except LoadErr (Artifact × Artifact × Artifact × Unit) := do
  let m ← loadModel
  let i ← loadImputer
  let s ← loadSelected
  let c ← getCfg
  pure (m, i, s, c)

/-- Error message of line 37 (selected-features artifact is not a list). -/
def notListMsg : String :=
  "Error: selected_features.joblib bukan sebuah list. Pastikan file sudah benar."

/-- Error message of line 42 (a model file is missing). -/
def fileNotFoundMsg : String :=
  "ERROR: File model tidak ditemukan. Pastikan file .joblib ada di folder yang sama."

/-- `load_assets` (lines 27-46): loads the four artifacts; a
`FileNotFoundError` or any other exception shows an error and halts the
process via `st.stop()`; a selected-features artifact that is not a list
shows an error and returns the all-`None` quadruple.  Returns the final
state together with the `st.error` messages emitted. -/
def load_assets (loadModel loadImputer loadSelected : Except LoadErr Artifact)
    (getCfg : Except LoadErr Unit) : AssetsResult × List String :=
  match tryLoadAll loadModel loadImputer loadSelected getCfg with
  | Except.error LoadErr.fileNotFound =>
      (AssetsResult.halted fileNotFoundMsg, [fileNotFoundMsg])
  | Except.error (LoadErr.exc m) =>
      (AssetsResult.halted ("Error saat memuat model: " ++ m),
       ["Error saat memuat model: " ++ m])
  | Except.ok (m, i, s, c) =>
      match s with
      | Artifact.strList names => (AssetsResult.loaded m i names c, [])
      | Artifact.blob _ => (AssetsResult.allNone, [notListMsg])

/-- Decoded WAV data as the transcoded file holds it: interleaved frames
of `nChannels` samples each, at some native rate. -/
structure WavData where
  nChannels : ℕ
  rate : ℕ
  frames : List (List ℚ)
deriving DecidableEq

/-- An audio signal as `librosa.load` returns it: samples, the sample
rate it reports, and its channel count. -/
structure AudioSignal where
  samples : List ℚ
  sampleRate : ℕ
  channels : ℕ
deriving DecidableEq

/-- Averaging a frame across channels (librosa's mono downmix). -/
def downmix (frame : List ℚ) : ℚ := frame.sum / frame.length

/-- Model of `librosa.load(..., sr=targetSr, mono=mono)` (lines 105 and
179), by its documented contract: with `mono=True` the channels are
averaged into one and the signal is resampled to and reported at the
requested rate.  The sample values after resampling are abstracted (the
claims concern only the rate and channel count). -/
def librosa_load (w : WavData) (targetSr : ℕ) (mono : Bool) : AudioSignal :=
  { samples := if mono then w.frames.map downmix else w.frames.flatten
    sampleRate := targetSr
    channels := if mono then 1 else w.nChannels }

/-- Embedding of line 179 (recorder tab): the recorded WAV bytes are
decoded with `librosa.load(..., sr=TARGET_SR, mono=True)`. -/
def recorded_signal (w : WavData) : AudioSignal :=
  librosa_load w TARGET_SR true

/-- The filesystem visible to the upload handler: the list of existing
temporary-file paths. -/
abbrev FS := List String

/-- Creating a file at `p`. -/
def createFile (p : String) (fs : FS) : FS := p :: fs

/-- `os.path.exists p`. -/
def fileExists (p : String) (fs : FS) : Bool := decide (p ∈ fs)

/-- `os.remove p`. -/
def removeFile (p : String) (fs : FS) : FS := fs.filter (fun q => q != p)

/-- One guard of the `finally` block (lines 121-124):
remove `p` if it exists. -/
def cleanupTemp (p : String) (fs : FS) : FS :=
  if fileExists p fs then removeFile p fs else fs

/-- Outcome of the ffmpeg subprocess call (lines 97-102): the binary is
absent (`FileNotFoundError`), it exits non-zero
(`CalledProcessError`, possibly after creating the output file), or it
succeeds and the transcoded output is then decoded by `librosa.load`
(`decoded` is the decode result; `Except.error` is a decode exception). -/
inductive FfmpegOutcome where
  | notFound
  | callFails (stderr : String) (outCreated : Bool)
  | ok (decoded : Except String WavData)

/-- Error message of line 114 (ffmpeg binary not found). -/
def ffmpegNotFoundMsg : String :=
  "ERROR: FFmpeg tidak ditemukan. Pastikan FFmpeg sudah terinstal."

/-- Result of `process_uploaded_file`: the label pair, the `st.error`
messages emitted, and the final filesystem state. -/
structure UploadOutcome where
  kata : Option String
  pembicara : Option String
  errors : List String
  finalFs : FS
deriving DecidableEq

/-- `process_uploaded_file` (lines 82-124): writes the upload to a fresh
temporary file, transcodes it with ffmpeg to `inputPath ++ ".wav"` at
mono/`TARGET_SR`, decodes the result with `librosa.load` and runs the
pipeline; each failure class is caught and shown; the `finally` block
removes both temporary paths if they exist.  The core pipeline call of
line 108 is the parameter `pipeline`. -/
def process_uploaded_file (fs0 : FS) (inputPath : String)
    (ffmpeg : FfmpegOutcome) (pipeline : AudioSignal → PipelineResult) :
    UploadOutcome :=
  let outputPath := inputPath ++ ".wav"
  let fs1 := createFile inputPath fs0
  let step : (Option String × Option String) × List String × FS :=
    match ffmpeg with
    | FfmpegOutcome.notFound => ((none, none), [ffmpegNotFoundMsg], fs1)
    | FfmpegOutcome.callFails stderr created =>
        ((none, none), ["Error saat konversi FFmpeg: " ++ stderr],
         if created then createFile outputPath fs1 else fs1)
    | FfmpegOutcome.ok decoded =>
        let fs2 := createFile outputPath fs1
        match decoded with
        | Except.error e =>
            ((none, none), ["Terjadi error saat memproses file upload: " ++ e], fs2)
        | Except.ok w =>
            let r := pipeline (librosa_load w TARGET_SR true)
            ((r.kata, r.pembicara), r.errors, fs2)
  let fs3 := cleanupTemp inputPath step.2.2
  let fs4 := cleanupTemp outputPath fs3
  ⟨step.1.1, step.1.2, step.2.1, fs4⟩

/-! ## Theorems about the Label Interpreter (C1, C9) -/

/-- C1 (counterexample): the claim maps any nonzero value at index 0 to
"Buka" and any nonzero value at index 2 to "Fikri", but on the vector
`[2, 0, 2]` — whose entries at indices 0 and 2 are nonzero — the code
(`== 1` comparisons, lines 72-73) yields ("Tutup", "Fauzan"). -/
theorem interpret_nonzero_claim_fails :
    (2 : ℤ) ≠ 0 ∧
    interpret [2, 0, 2] = Except.ok ("Tutup", "Fauzan") ∧
    ("Tutup", "Fauzan") ≠ (("Buka" : String), ("Fikri" : String)) := by
  refine ⟨by decide, rfl, by decide⟩

/-- C1 (amended): for every prediction vector of length at least 3, the
interpreter maps the value 1 at index 0 to "Buka" and any other value to
"Tutup", and the value 1 at index 2 to "Fikri" and any other value to
"Fauzan"; in particular index 0 = 1, index 2 = 0 yields
("Buka", "Fauzan") and index 0 = 0, index 2 = 1 yields
("Tutup", "Fikri"). -/
theorem interpret_eq_one_mapping (v : List ℤ) (h : 3 ≤ v.length) :
    interpret v =
      Except.ok ((if v.getD 0 0 = 1 then "Buka" else "Tutup"),
                 (if v.getD 2 0 = 1 then "Fikri" else "Fauzan")) ∧
    interpret [1, 0, 0] = Except.ok ("Buka", "Fauzan") ∧
    interpret [0, 0, 1] = Except.ok ("Tutup", "Fikri") := by
  refine ⟨?_, rfl, rfl⟩
  match v, h with
  | a :: b :: c :: t, _ =>
    simp [interpret, interpretKata, interpretPembicara, List.getD]

/-- Witness for `interpret_eq_one_mapping` at the vector `[1, 2, 3]`. -/
theorem interpret_eq_one_mapping_witness :
    interpret [1, 2, 3] =
      Except.ok ((if List.getD [(1 : ℤ), 2, 3] 0 0 = 1 then "Buka" else "Tutup"),
                 (if List.getD [(1 : ℤ), 2, 3] 2 0 = 1 then "Fikri" else "Fauzan")) ∧
    interpret [1, 0, 0] = Except.ok ("Buka", "Fauzan") ∧
    interpret [0, 0, 1] = Except.ok ("Tutup", "Fikri") :=
  interpret_eq_one_mapping [1, 2, 3] (by decide)

/-- C9: two prediction vectors of length at least 3 that agree at
positions 0 and 2 are interpreted identically — position 1 and any
position beyond 2 have no influence on the (word, speaker) pair. -/
theorem interpret_ignores_other_positions (v w : List ℤ)
    (_hv : 3 ≤ v.length) (_hw : 3 ≤ w.length)
    (h0 : v[0]? = w[0]?) (h2 : v[2]? = w[2]?) :
    interpret v = interpret w := by
  simp only [interpret, h0, h2]

/-- Witness for `interpret_ignores_other_positions`: vectors differing
only at position 1 and beyond position 2. -/
theorem interpret_ignores_other_positions_witness :
    interpret [1, 5, 0, 9] = interpret [1, 7, 0] :=
  interpret_ignores_other_positions [1, 5, 0, 9] [1, 7, 0]
    (by decide) (by decide) (by decide) (by decide)

/-! ## Theorems about the projection (reindex) step (C3) -/

/-- C3: reindexing onto the selected feature names yields a row whose
column list is exactly the selected names in the selected order; a
selected name absent from the extracted table appears with the
missing-value marker `NaN` at its column, and a present name keeps its
looked-up value — never an error, never dropped, for every extracted
table. -/
theorem reindex_exact_columns (features : Row) (cols : List String) :
    (reindexColumns features cols).map Prod.fst = cols ∧
    (∀ c ∈ cols, features.find? (fun p => p.1 == c) = none →
        (c, Val.nan) ∈ reindexColumns features cols) ∧
    (∀ c ∈ cols, (c, lookupVal features c) ∈ reindexColumns features cols) := by
  refine ⟨?_, ?_, ?_⟩
  · simp only [reindexColumns, List.map_map]
    exact List.map_id cols
  · intro c hc hfind
    exact List.mem_map.mpr ⟨c, hc, by simp [lookupVal, hfind]⟩
  · intro c hc
    exact List.mem_map.mpr ⟨c, hc, rfl⟩

/-- Witness for `reindex_exact_columns`: a table having column "x" only,
reindexed onto ["a", "x"]; "a" is absent and becomes `NaN`. -/
theorem reindex_exact_columns_witness :
    (reindexColumns [("x", Val.num 1)] ["a", "x"]).map Prod.fst = ["a", "x"] ∧
    ("a", Val.nan) ∈ reindexColumns [("x", Val.num 1)] ["a", "x"] ∧
    ("x", lookupVal [("x", Val.num 1)] "x") ∈ reindexColumns [("x", Val.num 1)] ["a", "x"] := by
  have h := reindex_exact_columns [("x", Val.num 1)] ["a", "x"]
  exact ⟨h.1, h.2.1 "a" (by decide) (by decide), h.2.2 "x" (by decide)⟩

/-! ## Helper lemmas about the pipeline -/

/-- The word interpretation is always one of the two word strings. -/
theorem interpretKata_mem (a : ℤ) :
    interpretKata a = "Buka" ∨ interpretKata a = "Tutup" := by
  unfold interpretKata
  split <;> simp

/-- The speaker interpretation is always one of the two speaker strings. -/
theorem interpretPembicara_mem (b : ℤ) :
    interpretPembicara b = "Fikri" ∨ interpretPembicara b = "Fauzan" := by
  unfold interpretPembicara
  split <;> simp

/-- Any successful interpretation yields one of the two word strings and
one of the two speaker strings. -/
theorem interpret_ok_mem (pa : List ℤ) (k sp : String)
    (h : interpret pa = Except.ok (k, sp)) :
    (k = "Buka" ∨ k = "Tutup") ∧ (sp = "Fikri" ∨ sp = "Fauzan") := by
  unfold interpret at h
  rcases h0 : pa[0]? with _ | a <;> rcases h2 : pa[2]? with _ | b <;>
    rw [h0, h2] at h <;> simp only at h
  · exact absurd h (by simp)
  · exact absurd h (by simp)
  · exact absurd h (by simp)
  · injection h with h
    injection h with hk hsp
    exact ⟨hk ▸ interpretKata_mem a, hsp ▸ interpretPembicara_mem b⟩

/-- A successful pipeline body ends in the interpreter, so its label pair
is drawn from the two word strings and the two speaker strings. -/
theorem pipelineBody_ok_mem
    (extractor : List ℚ → ℕ → Except String Row) (selected : List String)
    (imputerT : Row → Except String Row)
    (predictF : Row → Except String (List (List ℤ)))
    (signal : List ℚ) (sr : ℕ) (k sp : String)
    (h : pipelineBody extractor selected imputerT predictF signal sr = Except.ok (k, sp)) :
    (k = "Buka" ∨ k = "Tutup") ∧ (sp = "Fikri" ∨ sp = "Fauzan") := by
  unfold pipelineBody at h
  split at h
  · exact absurd h (by simp)
  · dsimp only at h
    split at h
    · exact absurd h (by simp)
    · split at h
      · exact absurd h (by simp)
      · split at h
        · exact interpret_ok_mem _ _ _ h
        · exact absurd h (by simp)

/-- After `replace_inf`, no cell of the row is an infinity. -/
theorem replace_inf_clean (row : Row) :
    ∀ p ∈ replace_inf row, p.2 ≠ Val.posInf ∧ p.2 ≠ Val.negInf := by
  intro p hp
  obtain ⟨⟨n, v⟩, _, rfl⟩ := List.mem_map.mp hp
  cases v <;> simp [replaceInfVal]

/-! ## Theorems about pipeline error handling and result shape (C4, C6, C10) -/

/-- C4: when any step of the pipeline fails, the remaining steps are not
executed and the request yields no label pair.  Conjunct 1: any body
error is caught at the boundary and converted to the user-facing message,
the result carrying no labels.  Conjunct 2: if extraction fails, the
result is the same whatever imputer and classifier are installed — they
are never invoked.  Conjunct 3: likewise, if imputation fails the
classifier is never invoked. -/
theorem pipeline_failure_aborts
    (extractor : List ℚ → ℕ → Except String Row) (selected : List String)
    (imputerT : Row → Except String Row)
    (predictF : Row → Except String (List (List ℤ)))
    (signal : List ℚ) (sr : ℕ) :
    (∀ e, pipelineBody extractor selected imputerT predictF signal sr = Except.error e →
        run_prediction_pipeline extractor selected imputerT predictF signal sr =
          ⟨none, none, ["Terjadi error saat menjalankan pipeline prediksi: " ++ e]⟩) ∧
    (∀ e, extractor signal sr = Except.error e →
        ∀ (imputerT2 : Row → Except String Row)
          (predictF2 : Row → Except String (List (List ℤ))),
          run_prediction_pipeline extractor selected imputerT2 predictF2 signal sr =
            ⟨none, none, ["Terjadi error saat menjalankan pipeline prediksi: " ++ e]⟩) ∧
    (∀ features e, extractor signal sr = Except.ok features →
        imputerT (replace_inf (reindexColumns features selected)) = Except.error e →
        ∀ (predictF2 : Row → Except String (List (List ℤ))),
          run_prediction_pipeline extractor selected imputerT predictF2 signal sr =
            ⟨none, none, ["Terjadi error saat menjalankan pipeline prediksi: " ++ e]⟩) := by
  refine ⟨?_, ?_, ?_⟩
  · intro e h
    unfold run_prediction_pipeline
    rw [h]
  · intro e h imputerT2 predictF2
    unfold run_prediction_pipeline pipelineBody
    rw [h]
  · intro features e hex himp predictF2
    unfold run_prediction_pipeline pipelineBody
    rw [hex]
    simp only [himp]

/-- Witness for `pipeline_failure_aborts`: a failing extractor (conjunct
2) and a failing imputer after a successful extraction (conjunct 3). -/
theorem pipeline_failure_aborts_witness :
    run_prediction_pipeline (fun _ _ => Except.error "boom") []
        (fun r => Except.ok r) (fun _ => Except.ok [[1, 0, 1]]) [] 16000 =
      ⟨none, none, ["Terjadi error saat menjalankan pipeline prediksi: " ++ "boom"]⟩ ∧
    run_prediction_pipeline (fun _ _ => Except.ok []) []
        (fun _ => Except.error "imp") (fun _ => Except.ok [[1, 0, 1]]) [] 16000 =
      ⟨none, none, ["Terjadi error saat menjalankan pipeline prediksi: " ++ "imp"]⟩ :=
  ⟨(pipeline_failure_aborts (fun _ _ => Except.error "boom") []
      (fun r => Except.ok r) (fun _ => Except.ok [[1, 0, 1]]) [] 16000).2.1
        "boom" rfl _ _,
   (pipeline_failure_aborts (fun _ _ => Except.ok []) []
      (fun _ => Except.error "imp") (fun _ => Except.ok [[1, 0, 1]]) [] 16000).2.2
        [] "imp" rfl rfl _⟩

/-- C6: both infinities are replaced by the missing-value marker before
imputation (conjunct 1); after replacement no infinity remains in the
row (conjunct 2); and the imputer is only ever applied to a row free of
infinities — two imputers agreeing on infinity-free rows make the whole
pipeline agree (conjunct 3). -/
theorem replace_inf_clears_infinities :
    (replaceInfVal Val.posInf = Val.nan ∧ replaceInfVal Val.negInf = Val.nan) ∧
    (∀ (row : Row), ∀ p ∈ replace_inf row, p.2 ≠ Val.posInf ∧ p.2 ≠ Val.negInf) ∧
    (∀ (extractor : List ℚ → ℕ → Except String Row) (selected : List String)
       (imputerT1 imputerT2 : Row → Except String Row)
       (predictF : Row → Except String (List (List ℤ)))
       (signal : List ℚ) (sr : ℕ),
        (∀ r : Row, (∀ p ∈ r, p.2 ≠ Val.posInf ∧ p.2 ≠ Val.negInf) →
            imputerT1 r = imputerT2 r) →
        run_prediction_pipeline extractor selected imputerT1 predictF signal sr =
          run_prediction_pipeline extractor selected imputerT2 predictF signal sr) := by
  refine ⟨⟨rfl, rfl⟩, replace_inf_clean, ?_⟩
  intro extractor selected imputerT1 imputerT2 predictF signal sr himp
  unfold run_prediction_pipeline pipelineBody
  cases hx : extractor signal sr with
  | error e => rfl
  | ok features =>
    simp only [himp (replace_inf (reindexColumns features selected))
      (replace_inf_clean _)]

/-- Witness for `replace_inf_clears_infinities`: the replaced row of a
one-column table holding `+inf`, and two identical imputers. -/
theorem replace_inf_clears_infinities_witness :
    (("a", Val.nan).2 ≠ Val.posInf ∧ ("a", Val.nan).2 ≠ Val.negInf) ∧
    run_prediction_pipeline (fun _ _ => Except.ok [("a", Val.posInf)]) ["a"]
        (fun r => Except.ok r) (fun _ => Except.ok [[1, 0, 1]]) [] 16000 =
      run_prediction_pipeline (fun _ _ => Except.ok [("a", Val.posInf)]) ["a"]
        (fun r => Except.ok r) (fun _ => Except.ok [[1, 0, 1]]) [] 16000 :=
  ⟨replace_inf_clears_infinities.2.1 [("a", Val.posInf)] ("a", Val.nan) (by decide),
   replace_inf_clears_infinities.2.2 (fun _ _ => Except.ok [("a", Val.posInf)]) ["a"]
     (fun r => Except.ok r) (fun r => Except.ok r)
     (fun _ => Except.ok [[1, 0, 1]]) [] 16000 (fun _ _ => rfl)⟩

/-- C10: the pipeline returns either the pair (none, none) or a pair of
two present labels, the word among "Buka"/"Tutup" and the speaker among
"Fikri"/"Fauzan" — never a mixed pair with exactly one missing
component. -/
theorem run_pipeline_result_shape
    (extractor : List ℚ → ℕ → Except String Row) (selected : List String)
    (imputerT : Row → Except String Row)
    (predictF : Row → Except String (List (List ℤ)))
    (signal : List ℚ) (sr : ℕ) :
    ((run_prediction_pipeline extractor selected imputerT predictF signal sr).kata = none ∧
     (run_prediction_pipeline extractor selected imputerT predictF signal sr).pembicara = none) ∨
    (∃ k sp,
      (run_prediction_pipeline extractor selected imputerT predictF signal sr).kata = some k ∧
      (run_prediction_pipeline extractor selected imputerT predictF signal sr).pembicara = some sp ∧
      (k = "Buka" ∨ k = "Tutup") ∧ (sp = "Fikri" ∨ sp = "Fauzan")) := by
  unfold run_prediction_pipeline
  cases hb : pipelineBody extractor selected imputerT predictF signal sr with
  | error e => exact Or.inl ⟨rfl, rfl⟩
  | ok pair =>
    obtain ⟨k, sp⟩ := pair
    exact Or.inr ⟨k, sp, rfl, rfl,
      pipelineBody_ok_mem extractor selected imputerT predictF signal sr k sp hb⟩

/-! ## Theorems about the Asset Loader (C2, C7) -/

/-- C2 (counterexample): with the three artifact loads succeeding but the
selected-features artifact not being a list, `load_assets` does not halt —
it returns the all-`None` quadruple of line 38, so execution continues
with `None` assets. -/
theorem load_assets_nonlist_does_not_halt :
    (load_assets (Except.ok (Artifact.blob "model")) (Except.ok (Artifact.blob "imputer"))
        (Except.ok (Artifact.blob "notalist")) (Except.ok ())).1 = AssetsResult.allNone ∧
    ((load_assets (Except.ok (Artifact.blob "model")) (Except.ok (Artifact.blob "imputer"))
        (Except.ok (Artifact.blob "notalist")) (Except.ok ())).1).isHalted = false :=
  ⟨rfl, rfl⟩

/-- C2 (amended): when the selected-feature-names artifact is loaded but
is not a list, the Asset Loader reports the configuration-error message
and returns the all-`None` quadruple to the rest of the program; it does
not halt execution (halting happens only when a load raises). -/
theorem load_assets_nonlist_returns_all_none (m i : Artifact) (t : String) (c : Unit) :
    load_assets (Except.ok m) (Except.ok i) (Except.ok (Artifact.blob t)) (Except.ok c) =
      (AssetsResult.allNone, [notListMsg]) :=
  rfl

/-- C7: if any of the four artifact loads raises `FileNotFoundError`,
`load_assets` ends in `st.stop()` — the process halts and never proceeds
to serve requests. -/
theorem load_assets_missing_file_halts
    (loadModel loadImputer loadSelected : Except LoadErr Artifact)
    (getCfg : Except LoadErr Unit)
    (h : loadModel = Except.error LoadErr.fileNotFound ∨
         loadImputer = Except.error LoadErr.fileNotFound ∨
         loadSelected = Except.error LoadErr.fileNotFound ∨
         getCfg = Except.error LoadErr.fileNotFound) :
    ((load_assets loadModel loadImputer loadSelected getCfg).1).isHalted = true := by
  rcases h with h | h | h | h
  · subst h; rfl
  · subst h
    cases loadModel with
    | ok m => rfl
    | error e => cases e <;> rfl
  · subst h
    cases loadModel with
    | ok m =>
      cases loadImputer with
      | ok i => rfl
      | error e => cases e <;> rfl
    | error e => cases e <;> rfl
  · subst h
    cases loadModel with
    | ok m =>
      cases loadImputer with
      | ok i =>
        cases loadSelected with
        | ok s => rfl
        | error e => cases e <;> rfl
      | error e => cases e <;> rfl
    | error e => cases e <;> rfl

/-- Witness for `load_assets_missing_file_halts`: the classifier file is
missing. -/
theorem load_assets_missing_file_halts_witness :
    ((load_assets (Except.error LoadErr.fileNotFound) (Except.ok (Artifact.blob "imputer"))
        (Except.ok (Artifact.strList ["f"])) (Except.ok ())).1).isHalted = true :=
  load_assets_missing_file_halts (Except.error LoadErr.fileNotFound)
    (Except.ok (Artifact.blob "imputer")) (Except.ok (Artifact.strList ["f"]))
    (Except.ok ()) (Or.inl rfl)

/-! ## Helper lemmas about the temporary-file model -/

/-- The output path `s ++ ".wav"` is never the input path `s`. -/
theorem ne_append_wav (s : String) : s ≠ s ++ ".wav" := by
  intro h
  have h2 := congrArg String.length h
  rw [String.length_append] at h2
  have h3 : (".wav" : String).length = 4 := rfl
  omega

/-- Filtering out a path that is not present leaves the list unchanged. -/
theorem filter_ne_of_not_mem (l : FS) (p : String) (h : p ∉ l) :
    l.filter (fun q => q != p) = l := by
  apply List.filter_eq_self.mpr
  intro a ha
  simp only [bne_iff_ne, ne_eq, decide_eq_true_eq]
  exact fun hq => h (hq ▸ ha)

/-- Cleaning up both temp paths when both were created restores the
original filesystem. -/
theorem cleanup_pair (fs0 : FS) (a b : String) (hba : b ≠ a)
    (ha : a ∉ fs0) (hb : b ∉ fs0) :
    cleanupTemp b (cleanupTemp a (b :: a :: fs0)) = fs0 := by
  have h1 : cleanupTemp a (b :: a :: fs0) = b :: fs0 := by
    simp [cleanupTemp, fileExists, removeFile, List.filter_cons, hba,
      filter_ne_of_not_mem fs0 a ha]
  rw [h1]
  simp [cleanupTemp, fileExists, removeFile, List.filter_cons,
    filter_ne_of_not_mem fs0 b hb]

/-- Cleaning up both temp paths when only the input file was created
restores the original filesystem. -/
theorem cleanup_single (fs0 : FS) (a b : String)
    (ha : a ∉ fs0) (hb : b ∉ fs0) :
    cleanupTemp b (cleanupTemp a (a :: fs0)) = fs0 := by
  have h1 : cleanupTemp a (a :: fs0) = fs0 := by
    simp [cleanupTemp, fileExists, removeFile, List.filter_cons,
      filter_ne_of_not_mem fs0 a ha]
  rw [h1]
  simp [cleanupTemp, fileExists, hb]

/-! ## Theorems about the upload handler (C5, C8) -/

/-- C5: for fresh temporary paths, `process_uploaded_file` removes every
temporary file it created on every exit path — the final filesystem
equals the initial one for all four ffmpeg/decode outcomes — and when the
ffmpeg binary is absent the result is the distinguished
transcoder-not-found message with no label pair, the handler returning
normally. -/
theorem process_upload_cleanup (fs0 : FS) (inputPath : String)
    (ffmpeg : FfmpegOutcome) (pipeline : AudioSignal → PipelineResult)
    (hin : inputPath ∉ fs0) (hout : (inputPath ++ ".wav") ∉ fs0) :
    (process_uploaded_file fs0 inputPath ffmpeg pipeline).finalFs = fs0 ∧
    (ffmpeg = FfmpegOutcome.notFound →
      process_uploaded_file fs0 inputPath ffmpeg pipeline =
        ⟨none, none, [ffmpegNotFoundMsg], fs0⟩) := by
  have hba : inputPath ++ ".wav" ≠ inputPath :=
    fun h => ne_append_wav inputPath h.symm
  constructor
  · cases ffmpeg with
    | notFound =>
      exact cleanup_single fs0 inputPath (inputPath ++ ".wav") hin hout
    | callFails stderr created =>
      cases created with
      | true => exact cleanup_pair fs0 inputPath (inputPath ++ ".wav") hba hin hout
      | false => exact cleanup_single fs0 inputPath (inputPath ++ ".wav") hin hout
    | ok decoded =>
      cases decoded with
      | error e => exact cleanup_pair fs0 inputPath (inputPath ++ ".wav") hba hin hout
      | ok w => exact cleanup_pair fs0 inputPath (inputPath ++ ".wav") hba hin hout
  · intro h
    subst h
    show UploadOutcome.mk none none [ffmpegNotFoundMsg]
        (cleanupTemp (inputPath ++ ".wav") (cleanupTemp inputPath (inputPath :: fs0))) =
      UploadOutcome.mk none none [ffmpegNotFoundMsg] fs0
    rw [cleanup_single fs0 inputPath (inputPath ++ ".wav") hin hout]

/-- Witness for `process_upload_cleanup`: an upload on a filesystem
holding one unrelated file, with the ffmpeg binary absent. -/
theorem process_upload_cleanup_witness :
    (process_uploaded_file ["model_suara.joblib"] "tmp1" FfmpegOutcome.notFound
        (fun _ => ⟨none, none, []⟩)).finalFs = ["model_suara.joblib"] ∧
    process_uploaded_file ["model_suara.joblib"] "tmp1" FfmpegOutcome.notFound
        (fun _ => ⟨none, none, []⟩) =
      ⟨none, none, [ffmpegNotFoundMsg], ["model_suara.joblib"]⟩ := by
  have h := process_upload_cleanup ["model_suara.joblib"] "tmp1" FfmpegOutcome.notFound
    (fun _ => ⟨none, none, []⟩) (by decide) (by decide)
  exact ⟨h.1, h.2 rfl⟩

/-- C8: every signal handed to the pipeline by either input path is
mono at the target rate: `librosa.load` is invoked with
`sr=TARGET_SR, mono=True` on the transcoded upload (line 105) and on the
recorded bytes (line 179), so the resulting `AudioSignal` reports sample
rate 16000 and a single channel; the upload handler feeds the pipeline
exactly that normalized signal. -/
theorem normalized_signal_invariant (w : WavData) :
    (librosa_load w TARGET_SR true).sampleRate = 16000 ∧
    (librosa_load w TARGET_SR true).channels = 1 ∧
    (recorded_signal w).sampleRate = 16000 ∧
    (recorded_signal w).channels = 1 ∧
    ∀ (fs0 : FS) (inputPath : String) (pipeline : AudioSignal → PipelineResult),
      (process_uploaded_file fs0 inputPath (FfmpegOutcome.ok (Except.ok w)) pipeline).kata =
        (pipeline (librosa_load w TARGET_SR true)).kata ∧
      (process_uploaded_file fs0 inputPath (FfmpegOutcome.ok (Except.ok w)) pipeline).pembicara =
        (pipeline (librosa_load w TARGET_SR true)).pembicara :=
  ⟨rfl, rfl, rfl, rfl, fun _ _ _ => ⟨rfl, rfl⟩⟩

end SoundApp
